import Mathlib

/-!
# AI_Math_Solver: `src/solver.cpp`

A shallow embedding of the command-line entry point `main` of `src/solver.cpp`
and the properties of its observable behaviour (text written to the two
standard streams and the exit code).

Modelling conventions:

* A C string (`char*`) is represented by its content, the characters before
  the terminating NUL, as a Lean `String`.  `std::string problem(argv[1])`
  copies exactly that content, so it is the identity on this representation.
* The argument vector `argv` is a `List String`; entry 0 is the program name.
  Reading `argv[1]` outside the vector is undefined behaviour and is modelled
  by `none`.
* The standard streams are modelled by the trace of effects performed on
  them, in program order.  Every output function is bracketed by a sentry:
  on construction it flushes the stream the target is tied to, on
  destruction it flushes the target when `unitbuf` is set.  `std::cerr` is
  tied to `std::cout` and has `unitbuf` set; `std::cout` has neither.
  `os << std::endl` is `os.put` of a newline followed by `os.flush()`, both
  of them output functions.
-/

namespace Solver

/-- The two standard output streams used by the program. -/
inductive OStream
  | cout
  | cerr
  deriving DecidableEq

/-- One observable effect on a stream. -/
inductive Event
  | write (os : OStream) (text : String)
  | flush (os : OStream)
  deriving DecidableEq

/-- The stream an effect acts on. -/
def Event.target : Event → OStream
  | Event.write os _ => os
  | Event.flush os => os

/-- Effects in program order. -/
abbrev Trace := List Event

/-- Tells whether an effect is a write. -/
def Event.isWrite : Event → Bool
  | Event.write _ _ => true
  | Event.flush _ => false

/-- The stream `os.tie()`: `std::cerr` is tied to `std::cout`, `std::cout` to nothing. -/
def tie : OStream → Option OStream
  | OStream.cerr => some OStream.cout
  | OStream.cout => none

/-- The `unitbuf` flag of a standard stream: set on `std::cerr` only. -/
def unitbuf : OStream → Bool
  | OStream.cerr => true
  | OStream.cout => false

/-- Construction of the sentry of an output function on `os`: flushes the tied stream, if
there is one. The only tied stream is `std::cout`, which has no tie and no `unitbuf`, so
its flush is a single effect. -/
def sentryOpen (os : OStream) (t : Trace) : Trace :=
  match tie os with
  | some tied => t ++ [Event.flush tied]
  | none => t

/-- Destruction of the sentry of an output function on `os`: flushes `os` when `unitbuf`
is set. -/
def sentryClose (os : OStream) (t : Trace) : Trace :=
  if unitbuf os then t ++ [Event.flush os] else t

/-- The stream insertion `os << text`. -/
def put (os : OStream) (text : String) (t : Trace) : Trace :=
  sentryClose os (sentryOpen os t ++ [Event.write os text])

/-- The member function `os.flush()`. -/
def flushStream (os : OStream) (t : Trace) : Trace :=
  sentryClose os (sentryOpen os t ++ [Event.flush os])

/-- The manipulator `os << std::endl`: puts a newline, then calls `os.flush()`. -/
def endl (os : OStream) (t : Trace) : Trace :=
  flushStream os (put os "\n" t)

/-- What a finished run leaves behind: the effects and the value returned by `main`. -/
structure Outcome where
  trace : Trace
  exitCode : Int
  deriving DecidableEq

/-- The function `main` of `src/solver.cpp`. -/
def main (argc : Int) (argv : List String) : Option Outcome :=
  if argc < 2 then
    let t := endl OStream.cerr (put OStream.cerr "No math problem provided." [])
    some { trace := t, exitCode := 1 }
  else
    match argv[1]? with
    | none => none
    | some problem =>
      let t := endl OStream.cout (put OStream.cout problem (put OStream.cout "Problem: " []))
      let t := endl OStream.cout (put OStream.cout "Answer: 42" t)
      let t := endl OStream.cout (put OStream.cout "Steps: Parsed problem, computed result." t)
      some { trace := t, exitCode := 0 }

/-- Program start-up: the host environment calls `main` with `argc` equal to the
number of entries of the argument vector. -/
def invoke (args : List String) : Option Outcome :=
  main (args.length : Int) args

/-- The text a trace writes to the stream `os`: its writes to `os`, concatenated in order. -/
def written (os : OStream) : Trace → String
  | [] => ""
  | Event.write s text :: t => if s = os then text ++ written os t else written os t
  | Event.flush _ :: t => written os t

/-- Standard output of a run. -/
def stdout (o : Outcome) : String := written OStream.cout o.trace

/-- Standard error of a run. -/
def stderr (o : Outcome) : String := written OStream.cerr o.trace

/-- The three observables of a run: standard output, standard error, exit code. -/
def observe (o : Outcome) : String × String × Int := (stdout o, stderr o, o.exitCode)

/-- A text split at its line breaks: `k` line breaks give `k + 1` pieces, the last one
being what follows the final line break (empty when the text ends with a line break). -/
def linesOf (s : String) : List String :=
  (s.data.splitOn '\n').map String.mk

/-- Line `n` of a text, counting from 1. -/
def lineAt (n : Nat) (s : String) : Option String :=
  match n with
  | 0 => none
  | k + 1 => (linesOf s)[k]?

/-- The number of line terminators in a text. -/
def lineBreaks (s : String) : Nat := s.data.count '\n'

/-- The fixed text that follows the echoed problem on standard output. -/
def fixedTail : String := "\nAnswer: 42\nSteps: Parsed problem, computed result.\n"

/-- Reads the problem back from a standard output text: removes the label in front
and the fixed text behind. -/
def recoverProblem (out : String) : String :=
  let body := out.data.drop "Problem: ".length
  String.mk (body.take (body.length - fixedTail.length))

/-! ## The two paths of `main` -/

theorem invoke_missing (args : List String) (h : args.length < 2) :
    invoke args = some
      { trace := [Event.flush OStream.cout,
                  Event.write OStream.cerr "No math problem provided.",
                  Event.flush OStream.cerr,
                  Event.flush OStream.cout, Event.write OStream.cerr "\n",
                  Event.flush OStream.cerr,
                  Event.flush OStream.cout, Event.flush OStream.cerr,
                  Event.flush OStream.cerr],
        exitCode := 1 } := by
  have hc : (args.length : Int) < 2 := by exact_mod_cast h
  simp [invoke, main, hc, put, endl, flushStream, sentryOpen, sentryClose, tie, unitbuf]

theorem length_of_arg (args : List String) (S : String) (h : args[1]? = some S) :
    2 ≤ args.length := by
  rcases List.getElem?_eq_some.mp h with ⟨hlt, _⟩
  omega

theorem arg_of_length (args : List String) (h : 2 ≤ args.length) :
    ∃ S, args[1]? = some S :=
  ⟨args[1], List.getElem?_eq_getElem (by omega)⟩

theorem invoke_supplied (args : List String) (S : String) (h : args[1]? = some S) :
    invoke args = some
      { trace := [Event.write OStream.cout "Problem: ", Event.write OStream.cout S,
                  Event.write OStream.cout "\n", Event.flush OStream.cout,
                  Event.write OStream.cout "Answer: 42",
                  Event.write OStream.cout "\n", Event.flush OStream.cout,
                  Event.write OStream.cout "Steps: Parsed problem, computed result.",
                  Event.write OStream.cout "\n", Event.flush OStream.cout],
        exitCode := 0 } := by
  have hlen := length_of_arg args S h
  have hc : ¬ (args.length : Int) < 2 := by
    have : (2 : Int) ≤ (args.length : Int) := by exact_mod_cast hlen
    omega
  simp [invoke, main, hc, h, put, endl, flushStream, sentryOpen, sentryClose, tie, unitbuf]

theorem observe_missing (args : List String) (h : args.length < 2) :
    (invoke args).map observe = some ("", "No math problem provided.\n", 1) := by
  rw [invoke_missing args h]
  simp [observe, stdout, stderr, written]

theorem observe_supplied (args : List String) (S : String) (h : args[1]? = some S) :
    (invoke args).map observe = some ("Problem: " ++ S ++ fixedTail, "", 0) := by
  rw [invoke_supplied args S h]
  have hne : ¬ (OStream.cout = OStream.cerr) := by decide
  simp only [Option.map_some', observe, stdout, stderr, written, if_true, if_false, hne,
    fixedTail, Option.some.injEq, Prod.mk.injEq, and_true]
  apply String.ext
  simp [String.data_append]

theorem stdout_supplied (args : List String) (S : String) (h : args[1]? = some S) :
    (invoke args).map stdout = some ("Problem: " ++ S ++ fixedTail) := by
  have := congrArg (Option.map Prod.fst) (observe_supplied args S h)
  simpa [Option.map_map, Function.comp_def, observe] using this

theorem exitCode_supplied (args : List String) (h : 2 ≤ args.length) :
    (invoke args).map Outcome.exitCode = some 0 := by
  obtain ⟨S, hS⟩ := arg_of_length args h
  rw [invoke_supplied args S hS]
  rfl

theorem exitCode_missing (args : List String) (h : args.length < 2) :
    (invoke args).map Outcome.exitCode = some 1 := by
  rw [invoke_missing args h]
  rfl

/-! ## Line structure of the success output -/

theorem not_break_of_not_mem (S : String) (h : '\n' ∉ S.data) :
    ∀ c ∈ "Problem: ".data ++ S.data, ¬ ((c == '\n') = true) := by
  intro c hc
  rcases List.mem_append.mp hc with hc | hc
  · have hall : ∀ d ∈ "Problem: ".data, ¬ ((d == '\n') = true) := by decide
    exact hall c hc
  · intro hcn
    have : c = '\n' := by simpa using hcn
    exact h (this ▸ hc)

theorem linesOf_success (S : String) (h : '\n' ∉ S.data) :
    linesOf ("Problem: " ++ S ++ fixedTail) =
      ["Problem: " ++ S, "Answer: 42", "Steps: Parsed problem, computed result.", ""] := by
  have hd : ("Problem: " ++ S ++ fixedTail).data =
      ("Problem: ".data ++ S.data) ++
        '\n' :: "Answer: 42\nSteps: Parsed problem, computed result.\n".data := by
    simp [String.data_append, fixedTail]
  have hrest : List.splitOnP (fun c => c == '\n')
      "Answer: 42\nSteps: Parsed problem, computed result.\n".data =
      ["Answer: 42".data, "Steps: Parsed problem, computed result.".data, []] := by
    decide
  unfold linesOf
  rw [hd, List.splitOn, List.splitOnP_first _ _ (not_break_of_not_mem S h) '\n' (by decide), hrest]
  simp only [List.map_cons, List.map_nil]
  rfl

theorem lineBreaks_success (S : String) :
    lineBreaks ("Problem: " ++ S ++ fixedTail) = 3 + lineBreaks S := by
  have h1 : List.count '\n' "Problem: ".data = 0 := by decide
  have h2 : List.count '\n' fixedTail.data = 3 := by decide
  simp only [lineBreaks, String.data_append, List.count_append, h1, h2]
  omega

theorem recoverProblem_success (S : String) :
    recoverProblem ("Problem: " ++ S ++ fixedTail) = S := by
  have hd : ("Problem: " ++ S ++ fixedTail).data =
      "Problem: ".data ++ (S.data ++ fixedTail.data) := by
    simp [String.data_append]
  have hlen : "Problem: ".length = "Problem: ".data.length := rfl
  have htl : fixedTail.length = fixedTail.data.length := rfl
  apply String.ext
  simp only [recoverProblem, hd, hlen, htl, List.drop_left, List.length_append,
    Nat.add_sub_cancel, List.take_left]

theorem success_ne_empty (S : String) : "Problem: " ++ S ++ fixedTail ≠ "" := by
  intro h
  have hlen := congrArg String.length h
  have hp : "Problem: ".length = 9 := by decide
  have he : "".length = 0 := by decide
  rw [String.length_append, String.length_append, hp, he] at hlen
  omega

theorem arg_eq_get (args : List String) (h : 2 ≤ args.length) :
    args[1]? = some args[1] :=
  List.getElem?_eq_getElem (by omega)

theorem map_through_stdout {β : Type} (f : String → β) (r : Option Outcome) (s : String)
    (h : r.map stdout = some s) : r.map (fun o => f (stdout o)) = some (f s) := by
  cases r with
  | none => simp at h
  | some o =>
    simp only [Option.map_some', Option.some.injEq] at h ⊢
    rw [h]

/-! ## The claims -/

/-- C1: for every argument list with at least one positional argument, the text written to
standard output is exactly the label `Problem: `, the first positional argument, a newline,
then `Answer: 42` and a newline, then `Steps: Parsed problem, computed result.` and a
newline, with nothing else. -/
theorem main_stdout_exact (args : List String) (hargc : 2 ≤ args.length) :
    (invoke args).map stdout =
      some ("Problem: " ++ args[1] ++ "\n" ++ "Answer: 42\n" ++
        "Steps: Parsed problem, computed result.\n") := by
  rw [stdout_supplied args args[1] (arg_eq_get args hargc)]
  congr 1
  apply String.ext
  simp [String.data_append, fixedTail]

theorem main_stdout_exact_witness :
    (invoke ["solver", "2+2"]).map stdout =
      some "Problem: 2+2\nAnswer: 42\nSteps: Parsed problem, computed result.\n" :=
  main_stdout_exact ["solver", "2+2"] (by decide)

/-- C2: with zero positional arguments (`argc < 2`) the run writes exactly the line
`No math problem provided.` and a newline to standard error, writes nothing to standard
output, and returns exit code 1. -/
theorem main_missing_argument (args : List String) (hargc : args.length < 2) :
    (invoke args).map stderr = some "No math problem provided.\n" ∧
    (invoke args).map stdout = some "" ∧
    (invoke args).map Outcome.exitCode = some 1 := by
  refine ⟨?_, ?_, ?_⟩ <;>
    rw [invoke_missing args hargc] <;> simp [stdout, stderr, written]

theorem main_missing_argument_witness :
    (invoke ["solver"]).map stderr = some "No math problem provided.\n" ∧
    (invoke ["solver"]).map stdout = some "" ∧
    (invoke ["solver"]).map Outcome.exitCode = some 1 :=
  main_missing_argument ["solver"] (by decide)

/-- C3: for every argument list the exit code is 0 exactly when at least one positional
argument is supplied (`argc >= 2`) and 1 exactly when none is; no other exit code occurs. -/
theorem main_exit_code (args : List String) :
    ((invoke args).map Outcome.exitCode = some 0 ↔ 2 ≤ args.length) ∧
    ((invoke args).map Outcome.exitCode = some 1 ↔ args.length < 2) ∧
    ((invoke args).map Outcome.exitCode = some 0 ∨
      (invoke args).map Outcome.exitCode = some 1) := by
  by_cases h : 2 ≤ args.length
  · have h0 := exitCode_supplied args h
    simp [h0, h]
  · have h1 := exitCode_missing args (by omega)
    have h2 : args.length < 2 := by omega
    simp [h1, h, h2]

/-- C4 as stated fails: for the non-empty sole argument `a\nb` (an `a`, a line break, a `b`)
the text before the first line break of standard output is `Problem: a`, which is not the
label followed by the whole argument. -/
theorem echo_first_line_refuted :
    "a\nb" ≠ "" ∧
    (invoke ["solver", "a\nb"]).map (fun o => lineAt 1 (stdout o)) =
      some (some "Problem: a") ∧
    (invoke ["solver", "a\nb"]).map (fun o => lineAt 1 (stdout o)) ≠
      some (some ("Problem: " ++ "a\nb")) := by
  decide

/-- C4 (amended): for every non-empty input string `S` that contains no line break, given as
the sole positional argument, line 1 of standard output (the text before the first line
break) is exactly the label `Problem: ` followed by `S`, unchanged. -/
theorem echo_first_line (prog S : String) (_hne : S ≠ "") (hnb : '\n' ∉ S.data) :
    (invoke [prog, S]).map (fun o => lineAt 1 (stdout o)) = some (some ("Problem: " ++ S)) := by
  rw [map_through_stdout _ _ _ (stdout_supplied [prog, S] S rfl)]
  simp [lineAt, linesOf_success S hnb]

theorem echo_first_line_witness :
    (invoke ["solver", "solve for x: 3x² = 9π"]).map (fun o => lineAt 1 (stdout o)) =
      some (some "Problem: solve for x: 3x² = 9π") :=
  echo_first_line "solver" "solve for x: 3x² = 9π" (by decide) (by decide)

/-- C5 as stated fails: for the argument `x\ny` line 2 of standard output is `y` and
line 3 is `Answer: 42`, so lines 2 and 3 are not the two fixed lines. -/
theorem fixed_lines_refuted :
    (invoke ["solver", "x\ny"]).map (fun o => (lineAt 2 (stdout o), lineAt 3 (stdout o))) =
      some (some "y", some "Answer: 42") ∧
    (invoke ["solver", "x\ny"]).map (fun o => (lineAt 2 (stdout o), lineAt 3 (stdout o))) ≠
      some (some "Answer: 42", some "Steps: Parsed problem, computed result.") := by
  decide

/-- C5 (amended): for every argument list whose first positional argument contains no line
break, line 2 of standard output is exactly `Answer: 42` and line 3 is exactly
`Steps: Parsed problem, computed result.`, whatever the argument is. -/
theorem fixed_lines (args : List String) (hargc : 2 ≤ args.length)
    (hnb : '\n' ∉ args[1].data) :
    (invoke args).map (fun o => (lineAt 2 (stdout o), lineAt 3 (stdout o))) =
      some (some "Answer: 42", some "Steps: Parsed problem, computed result.") := by
  rw [map_through_stdout (fun t => (lineAt 2 t, lineAt 3 t)) _ _
    (stdout_supplied args args[1] (arg_eq_get args hargc))]
  simp [lineAt, linesOf_success args[1] hnb]

theorem fixed_lines_witness :
    (invoke ["solver", "2+2"]).map (fun o => (lineAt 2 (stdout o), lineAt 3 (stdout o))) =
      some (some "Answer: 42", some "Steps: Parsed problem, computed result.") :=
  fixed_lines ["solver", "2+2"] (by decide) (by decide)

/-- C6 as stated fails: for the argument `1\n2` standard output holds four line
terminators, hence four lines, not three. -/
theorem three_lines_refuted :
    (invoke ["solver", "1\n2"]).map (fun o => lineBreaks (stdout o)) = some 4 ∧
    (invoke ["solver", "1\n2"]).map (fun o => linesOf (stdout o)) =
      some ["Problem: 1", "2", "Answer: 42", "Steps: Parsed problem, computed result.", ""] ∧
    (invoke ["solver", "1\n2"]).map (fun o => lineBreaks (stdout o)) ≠ some 3 := by
  decide

/-- C6 (amended): for every argument list whose first positional argument contains no line
break, standard output consists of exactly three lines: it holds exactly three line
terminators, and split at them it is the three lines followed by nothing. -/
theorem three_lines (args : List String) (hargc : 2 ≤ args.length)
    (hnb : '\n' ∉ args[1].data) :
    (invoke args).map (fun o => lineBreaks (stdout o)) = some 3 ∧
    (invoke args).map (fun o => linesOf (stdout o)) =
      some ["Problem: " ++ args[1], "Answer: 42",
        "Steps: Parsed problem, computed result.", ""] := by
  have h := stdout_supplied args args[1] (arg_eq_get args hargc)
  have h0 : lineBreaks args[1] = 0 := List.count_eq_zero_of_not_mem hnb
  constructor
  · rw [map_through_stdout _ _ _ h, lineBreaks_success, h0]
  · rw [map_through_stdout _ _ _ h, linesOf_success args[1] hnb]

theorem three_lines_witness :
    (invoke ["solver", "2+2"]).map (fun o => lineBreaks (stdout o)) = some 3 ∧
    (invoke ["solver", "2+2"]).map (fun o => linesOf (stdout o)) =
      some ["Problem: " ++ "2+2", "Answer: 42",
        "Steps: Parsed problem, computed result.", ""] :=
  three_lines ["solver", "2+2"] (by decide) (by decide)

/-- C7: every run writes to exactly one of the two streams. With at least one positional
argument the exit code is 0, standard error is empty, standard output is non-empty and every
write of the run is to standard output; with none the exit code is 1, standard output is
empty, standard error is non-empty and every write of the run is to standard error. -/
theorem main_single_stream (args : List String) :
    ∃ o, invoke args = some o ∧
      ((2 ≤ args.length ∧ o.exitCode = 0 ∧ stderr o = "" ∧ stdout o ≠ "" ∧
          (o.trace.filter Event.isWrite).all
            (fun e => decide (e.target = OStream.cout)) = true) ∨
       (args.length < 2 ∧ o.exitCode = 1 ∧ stdout o = "" ∧ stderr o ≠ "" ∧
          (o.trace.filter Event.isWrite).all
            (fun e => decide (e.target = OStream.cerr)) = true)) := by
  by_cases h : 2 ≤ args.length
  · have hS := arg_eq_get args h
    have hobs := observe_supplied args args[1] hS
    rw [invoke_supplied args args[1] hS] at hobs ⊢
    simp only [Option.map_some', Option.some.injEq, observe, Prod.mk.injEq] at hobs
    refine ⟨_, rfl, Or.inl ⟨h, rfl, hobs.2.1, ?_, ?_⟩⟩
    · rw [hobs.1]
      exact success_ne_empty _
    · simp [Event.target, Event.isWrite, List.filter]
  · have h2 : args.length < 2 := by omega
    have hobs := observe_missing args h2
    rw [invoke_missing args h2] at hobs ⊢
    simp only [Option.map_some', Option.some.injEq, observe, Prod.mk.injEq] at hobs
    refine ⟨_, rfl, Or.inr ⟨h2, rfl, hobs.1, ?_, ?_⟩⟩
    · rw [hobs.2.1]
      decide
    · simp [Event.target, Event.isWrite, List.filter]

/-- C8: two argument lists that both have at least one positional argument and agree on the
first one give the same run, hence the same standard output, standard error and exit code;
the program name and later arguments play no part, and the run succeeds with exit code 0. -/
theorem main_depends_on_first_argument_only (a b : List String)
    (ha : 2 ≤ a.length) (hb : 2 ≤ b.length) (hab : a[1] = b[1]) :
    invoke a = invoke b ∧
    (invoke a).map observe = (invoke b).map observe ∧
    (invoke a).map observe = some ("Problem: " ++ a[1] ++ fixedTail, "", 0) := by
  have hinv : invoke a = invoke b := by
    rw [invoke_supplied a a[1] (arg_eq_get a ha), invoke_supplied b b[1] (arg_eq_get b hb), hab]
  exact ⟨hinv, by rw [hinv], observe_supplied a a[1] (arg_eq_get a ha)⟩

theorem main_depends_on_first_argument_only_witness :
    invoke ["solver", "2+2"] = invoke ["./a.out", "2+2", "3*3", "-v"] ∧
    (invoke ["solver", "2+2"]).map observe =
      (invoke ["./a.out", "2+2", "3*3", "-v"]).map observe ∧
    (invoke ["solver", "2+2"]).map observe = some ("Problem: " ++ "2+2" ++ fixedTail, "", 0) :=
  main_depends_on_first_argument_only ["solver", "2+2"] ["./a.out", "2+2", "3*3", "-v"]
    (by decide) (by decide) (by decide)

/-- C9: on the success path standard output determines the input: if two runs, each with at
least one positional argument, write the same standard output, their first positional
arguments are equal; the argument is read back from standard output by removing the label
in front and the fixed text behind, also when it contains line breaks. -/
theorem stdout_injective (a b : List String) (ha : 2 ≤ a.length) (hb : 2 ≤ b.length)
    (heq : (invoke a).map stdout = (invoke b).map stdout) :
    a[1] = b[1] ∧
    (invoke a).map (fun o => recoverProblem (stdout o)) = some a[1] ∧
    (invoke b).map (fun o => recoverProblem (stdout o)) = some b[1] := by
  have h1 := stdout_supplied a a[1] (arg_eq_get a ha)
  have h2 := stdout_supplied b b[1] (arg_eq_get b hb)
  have r1 := map_through_stdout recoverProblem _ _ h1
  have r2 := map_through_stdout recoverProblem _ _ h2
  rw [recoverProblem_success] at r1 r2
  refine ⟨?_, r1, r2⟩
  rw [h1, h2, Option.some.injEq] at heq
  have := congrArg recoverProblem heq
  rwa [recoverProblem_success, recoverProblem_success] at this

theorem stdout_injective_witness :
    "a\nb" = "a\nb" ∧
    (invoke ["solver", "a\nb"]).map (fun o => recoverProblem (stdout o)) = some "a\nb" ∧
    (invoke ["./a.out", "a\nb", "c"]).map (fun o => recoverProblem (stdout o)) =
      some "a\nb" :=
  stdout_injective ["solver", "a\nb"] ["./a.out", "a\nb", "c"] (by decide) (by decide)
    (by decide)

/-- C10: an empty string as first positional argument counts as a supplied problem: the run
returns exit code 0, writes nothing to standard error and writes the three lines with an
empty problem to standard output; and for every argument list the failure exit code 1 is
returned exactly when fewer than two entries are given, whatever the entries are. -/
theorem empty_problem_is_supplied (prog : String) (rest : List String) :
    (invoke (prog :: "" :: rest)).map observe =
      some ("Problem: \nAnswer: 42\nSteps: Parsed problem, computed result.\n", "", 0) ∧
    ∀ args : List String,
      ((invoke args).map Outcome.exitCode = some 1 ↔ args.length < 2) := by
  constructor
  · rw [observe_supplied (prog :: "" :: rest) "" (by simp)]
    decide
  · intro args
    by_cases h : 2 ≤ args.length
    · have h0 := exitCode_supplied args h
      have h2 : ¬ args.length < 2 := by omega
      simp [h0, h2]
    · have h2 : args.length < 2 := by omega
      simp [exitCode_missing args h2, h2]

end Solver
